import Mathlib

/-!
Verification development for the object-detection inference pipeline in
src/object-detection/app/object_detection.c.

The per-tick function detect_objects is embedded as a pure function from an
environment record (the outcomes of the external larod / VDO calls and the
contents of the four mapped output tensors) to the list of externally visible
events of the tick, paired with its boolean return value.  Machine floats are
modelled as exact rationals; since the library operations on ℚ are not kernel
reducible, the embedding uses explicit mkRat-based operations ratAdd, ratSub
and ratMul, proved equal to the ordinary ring operations below.  The C
conversion of a nonnegative float to an unsigned integer is modelled by
truncation toward zero (natTrunc).  The unsigned subtraction
widthFrameHD - heightFrameHD is modelled by Nat subtraction, which agrees
with the C code whenever widthFrameHD is at least heightFrameHD (the
configuration the program assumes).
-/

namespace ObjectDetection

/-- Kernel-computable addition on ℚ. -/
def ratAdd (a b : ℚ) : ℚ := mkRat (a.num * b.den + a.den * b.num) (a.den * b.den)

/-- Kernel-computable subtraction on ℚ. -/
def ratSub (a b : ℚ) : ℚ := mkRat (a.num * b.den - a.den * b.num) (a.den * b.den)

/-- Kernel-computable multiplication on ℚ. -/
def ratMul (a b : ℚ) : ℚ := mkRat (a.num * b.num) (a.den * b.den)

theorem ratAdd_eq (a b : ℚ) : ratAdd a b = a + b := by
  have hda : ((a.den : ℚ)) ≠ 0 := Nat.cast_ne_zero.mpr a.den_nz
  have hdb : ((b.den : ℚ)) ≠ 0 := Nat.cast_ne_zero.mpr b.den_nz
  rw [ratAdd, Rat.mkRat_eq_div]
  push_cast
  rw [← div_add_div _ _ hda hdb, Rat.num_div_den, Rat.num_div_den]

theorem ratSub_eq (a b : ℚ) : ratSub a b = a - b := by
  have hda : ((a.den : ℚ)) ≠ 0 := Nat.cast_ne_zero.mpr a.den_nz
  have hdb : ((b.den : ℚ)) ≠ 0 := Nat.cast_ne_zero.mpr b.den_nz
  rw [ratSub, Rat.mkRat_eq_div]
  push_cast
  rw [← div_sub_div _ _ hda hdb, Rat.num_div_den, Rat.num_div_den]

theorem ratMul_eq (a b : ℚ) : ratMul a b = a * b := by
  rw [ratMul, Rat.mkRat_eq_div]
  push_cast
  rw [← div_mul_div_comm, Rat.num_div_den, Rat.num_div_den]

/-- Truncation of a nonnegative rational toward zero, modelling the C
conversion of a nonnegative float value to an unsigned integer. -/
def natTrunc (q : ℚ) : ℕ := (q.num / (q.den : ℤ)).toNat

/-- Byte size of one float in the output tensors (object_detection.c line 83). -/
def FLOATSIZE : ℕ := 4

/-- Byte size of the box-location output tensor: 80 floats (line 84). -/
def TENSOR1SIZE : ℕ := 80 * FLOATSIZE

/-- Byte size of the classes output tensor: 20 floats (line 85). -/
def TENSOR2SIZE : ℕ := 20 * FLOATSIZE

/-- Byte size of the scores output tensor: 20 floats (line 86). -/
def TENSOR3SIZE : ℕ := 20 * FLOATSIZE

/-- Byte size of the detection-count output tensor: 1 float (line 87). -/
def TENSOR4SIZE : ℕ := 1 * FLOATSIZE

/-- Capacity of the fixed overlay record array (line 205). -/
def OBJECT_OVERLAYS_MAX_LENGTH : ℕ := 5

/-- The HD-space crop rectangle computed inside detect_objects
(object_detection.c lines 937 to 942): the normalized box is scaled by the HD
frame height, re-offset horizontally by half the width surplus, and each value
is truncated to an unsigned integer.  Returns (crop_x, crop_y, crop_w,
crop_h). -/
def cropRect (widthFrameHD heightFrameHD : ℕ) (top left bottom right : ℚ) :
    ℕ × ℕ × ℕ × ℕ :=
  let croppedWidthHD : ℕ := heightFrameHD
  let crop_x : ℕ :=
    natTrunc (ratAdd (ratMul left (croppedWidthHD : ℚ))
      (((widthFrameHD - heightFrameHD) / 2 : ℕ) : ℚ))
  let crop_y : ℕ := natTrunc (ratMul top (heightFrameHD : ℚ))
  let crop_w : ℕ := natTrunc (ratMul (ratSub right left) (croppedWidthHD : ℚ))
  let crop_h : ℕ := natTrunc (ratMul (ratSub bottom top) (heightFrameHD : ℚ))
  (crop_x, crop_y, crop_w, crop_h)

/-- Embedding of get_coordinates (object_detection.c lines 232 to 276).  The
frame_width and frame_height parameters are received but used only in the
syslog call of the source: the rectangle itself is computed from the globals
widthFrameHD and heightFrameHD, passed here explicitly.  Returns
(out_top, out_left, out_bottom, out_right). -/
def get_coordinates (widthFrameHD heightFrameHD frame_width frame_height : ℕ)
    (top left bottom right : ℚ) : ℕ × ℕ × ℕ × ℕ :=
  let croppedWidthHD : ℕ := heightFrameHD
  let crop_x : ℕ :=
    natTrunc (ratAdd (ratMul left (croppedWidthHD : ℚ))
      (((widthFrameHD - heightFrameHD) / 2 : ℕ) : ℚ))
  let crop_y : ℕ := natTrunc (ratMul top (heightFrameHD : ℚ))
  let crop_w : ℕ := natTrunc (ratMul (ratSub right left) (croppedWidthHD : ℚ))
  let crop_h : ℕ := natTrunc (ratMul (ratSub bottom top) (heightFrameHD : ℚ))
  (crop_y, crop_x, crop_y + crop_h, crop_x + crop_w)

/-- Environment of one tick: the outcomes of the external calls made by
detect_objects and the contents of the mapped output tensors after inference,
together with the relevant process-wide configuration globals.  Tensor
contents are read through total functions; classes holds the float class
values already cast to nonnegative integers as the source does at each use. -/
structure Env where
  sdFrame : Option ℕ
  hdFrame : Option ℕ
  ppJobOk : Bool
  ppHDJobOk : Bool
  rewind1Ok : Bool
  rewind2Ok : Bool
  rewind3Ok : Bool
  rewind4Ok : Bool
  infJobOk : Bool
  locations : ℕ → ℚ
  classes : ℕ → ℕ
  scores : ℕ → ℚ
  numberOfDetections : ℕ
  labels : List String
  threshold : ℤ
  widthFrameHD : ℕ
  heightFrameHD : ℕ
  stream_width : ℕ
  stream_height : ℕ

/-- Externally visible events of one tick, in program order. -/
inductive Event where
  | acquireSD (h : ℕ)
  | acquireHD (h : ℕ)
  | runPPJob
  | runPPHDJob
  | rewindOut1
  | rewindOut2
  | rewindOut3
  | rewindOut4
  | runInference
  | labelLookup (idx : ℕ)
  | emitCrop (i : ℕ) (rect : ℕ × ℕ × ℕ × ℕ)
  | emitOverlay (i : ℕ) (rect : ℕ × ℕ × ℕ × ℕ) (label : String) (score : ℚ)
  | returnSD (h : ℕ)
  | returnHD (h : ℕ)
  deriving DecidableEq

/-- Events of the crop/encode loop (object_detection.c lines 931 to 975): for
every index below the reported detection count the box, class and score are
read; the label table is indexed and a crop artifact produced only when the
score reaches threshold divided by 100. -/
def cropLoopEvents (env : Env) : List Event :=
  (List.range env.numberOfDetections).flatMap fun i =>
    let top := env.locations (4 * i)
    let left := env.locations (4 * i + 1)
    let bottom := env.locations (4 * i + 2)
    let right := env.locations (4 * i + 3)
    let c := cropRect env.widthFrameHD env.heightFrameHD top left bottom right
    if mkRat env.threshold 100 ≤ env.scores i then
      [Event.labelLookup (env.classes i), Event.emitCrop i c]
    else []

/-- Number of overlay records produced in one tick (lines 986 to 988): the
detection count capped at OBJECT_OVERLAYS_MAX_LENGTH. -/
def overlayLoopLength (count : ℕ) : ℕ :=
  if count < OBJECT_OVERLAYS_MAX_LENGTH then count else OBJECT_OVERLAYS_MAX_LENGTH

/-- Events of the overlay loop (lines 990 to 1011): for each of the first
overlayLoopLength detections, a rectangle is computed by get_coordinates and
packaged with the looked-up label and the score.  No score filter is applied
in this loop. -/
def overlayLoopEvents (env : Env) : List Event :=
  (List.range (overlayLoopLength env.numberOfDetections)).flatMap fun i =>
    let top := env.locations (4 * i)
    let left := env.locations (4 * i + 1)
    let bottom := env.locations (4 * i + 2)
    let right := env.locations (4 * i + 3)
    let g := get_coordinates env.widthFrameHD env.heightFrameHD
        env.stream_width env.stream_height top left bottom right
    [Event.labelLookup (env.classes i),
     Event.emitOverlay i g (env.labels.getD (env.classes i) "") (env.scores i)]

/-- Embedding of detect_objects (object_detection.c lines 841 to 1062): the
tick acquires both frames, runs the two preprocess jobs, rewinds the four
output descriptors, runs inference, and post-processes; any failure returns
false immediately.  A zero detection count returns true right after inference.
The two frames are returned to their providers only on the final path. -/
def detect_objects (env : Env) : List Event × Bool :=
  match env.sdFrame with
  | none => ([], false)
  | some buf =>
    match env.hdFrame with
    | none => ([Event.acquireSD buf], false)
    | some buf_hq =>
      let t1 : List Event := [Event.acquireSD buf, Event.acquireHD buf_hq, Event.runPPJob]
      if env.ppJobOk = true then
        let t2 := t1 ++ [Event.runPPHDJob]
        if env.ppHDJobOk = true then
          let t3 := t2 ++ [Event.rewindOut1]
          if env.rewind1Ok = true then
            let t4 := t3 ++ [Event.rewindOut2]
            if env.rewind2Ok = true then
              let t5 := t4 ++ [Event.rewindOut3]
              if env.rewind3Ok = true then
                let t6 := t5 ++ [Event.rewindOut4]
                if env.rewind4Ok = true then
                  let t7 := t6 ++ [Event.runInference]
                  if env.infJobOk = true then
                    if env.numberOfDetections = 0 then (t7, true)
                    else (t7 ++ cropLoopEvents env ++ overlayLoopEvents env ++
                          [Event.returnSD buf, Event.returnHD buf_hq], true)
                  else (t7, false)
                else (t6, false)
              else (t5, false)
            else (t4, false)
          else (t3, false)
        else (t2, false)
      else (t1, false)

/-- The crop rectangle as stated by the specification, with the ordinary
rational operations: cropX equals left times hdHeight plus half of (hdWidth
minus hdHeight), cropY equals top times hdHeight, cropWidth equals (right
minus left) times hdHeight and cropHeight equals (bottom minus top) times
hdHeight, pixel values truncated to integers. -/
def cropRectSpec (hdWidth hdHeight : ℕ) (top left bottom right : ℚ) :
    ℕ × ℕ × ℕ × ℕ :=
  (natTrunc (left * (hdHeight : ℚ) + (((hdWidth - hdHeight) / 2 : ℕ) : ℚ)),
   natTrunc (top * (hdHeight : ℚ)),
   natTrunc ((right - left) * (hdHeight : ℚ)),
   natTrunc ((bottom - top) * (hdHeight : ℚ)))

/-- The overlay rectangle as the specification words it: the same affine map
as the crop rectangle but expressed against the live stream dimensions, so
the result is in stream-space pixels.  Returns (top, left, bottom, right). -/
def getCoordinatesStreamSpec (stream_width stream_height : ℕ)
    (top left bottom right : ℚ) : ℕ × ℕ × ℕ × ℕ :=
  let croppedWidth : ℕ := stream_height
  let x : ℕ :=
    natTrunc (ratAdd (ratMul left (croppedWidth : ℚ))
      (((stream_width - stream_height) / 2 : ℕ) : ℚ))
  let y : ℕ := natTrunc (ratMul top (stream_height : ℚ))
  let w : ℕ := natTrunc (ratMul (ratSub right left) (croppedWidth : ℚ))
  let h : ℕ := natTrunc (ratMul (ratSub bottom top) (stream_height : ℚ))
  (y, x, y + h, x + w)

/-- C1: the crop rectangle computed by the code coincides with the affine map
stated by the spec, and on the detector box (1/4, 1/4, 3/4, 3/4) with an HD
frame of 1280 by 720 it evaluates to (460, 180, 360, 360). -/
theorem C1_crop_rectangle (widthFrameHD heightFrameHD : ℕ)
    (top left bottom right : ℚ) (hgeom : heightFrameHD ≤ widthFrameHD) :
    cropRect widthFrameHD heightFrameHD top left bottom right =
      cropRectSpec widthFrameHD heightFrameHD top left bottom right ∧
    cropRect 1280 720 (mkRat 1 4) (mkRat 1 4) (mkRat 3 4) (mkRat 3 4) =
      (460, 180, 360, 360) := by
  refine ⟨?_, by decide⟩
  simp [cropRect, cropRectSpec, ratAdd_eq, ratSub_eq, ratMul_eq]

/-- Witness for C1 at the concrete round-trip input of the spec. -/
theorem C1_crop_rectangle_witness :
    (720 : ℕ) ≤ 1280 ∧
      cropRect 1280 720 (mkRat 1 4) (mkRat 1 4) (mkRat 3 4) (mkRat 3 4) =
        (460, 180, 360, 360) :=
  ⟨by decide,
   (C1_crop_rectangle 1280 720 (mkRat 1 4) (mkRat 1 4) (mkRat 3 4) (mkRat 3 4)
     (by decide)).2⟩

/-- Closed form of the tick on the fully successful path with a nonzero
detection count. -/
theorem detect_objects_success (env : Env) (b bhq : ℕ)
    (hsd : env.sdFrame = some b) (hhd : env.hdFrame = some bhq)
    (hpp : env.ppJobOk = true) (hpphd : env.ppHDJobOk = true)
    (hr1 : env.rewind1Ok = true) (hr2 : env.rewind2Ok = true)
    (hr3 : env.rewind3Ok = true) (hr4 : env.rewind4Ok = true)
    (hinf : env.infJobOk = true) (hn : env.numberOfDetections ≠ 0) :
    detect_objects env =
      ([Event.acquireSD b, Event.acquireHD bhq, Event.runPPJob, Event.runPPHDJob,
        Event.rewindOut1, Event.rewindOut2, Event.rewindOut3, Event.rewindOut4,
        Event.runInference]
        ++ cropLoopEvents env ++ overlayLoopEvents env
        ++ [Event.returnSD b, Event.returnHD bhq], true) := by
  simp [detect_objects, hsd, hhd, hpp, hpphd, hr1, hr2, hr3, hr4, hinf, hn]

/-- Closed form of the tick on the successful path with a zero detection
count: the tick stops right after inference, producing no post-processing
events and, in particular, no frame-return events. -/
theorem detect_objects_zero (env : Env) (b bhq : ℕ)
    (hsd : env.sdFrame = some b) (hhd : env.hdFrame = some bhq)
    (hpp : env.ppJobOk = true) (hpphd : env.ppHDJobOk = true)
    (hr1 : env.rewind1Ok = true) (hr2 : env.rewind2Ok = true)
    (hr3 : env.rewind3Ok = true) (hr4 : env.rewind4Ok = true)
    (hinf : env.infJobOk = true) (hn : env.numberOfDetections = 0) :
    detect_objects env =
      ([Event.acquireSD b, Event.acquireHD bhq, Event.runPPJob, Event.runPPHDJob,
        Event.rewindOut1, Event.rewindOut2, Event.rewindOut3, Event.rewindOut4,
        Event.runInference], true) := by
  simp [detect_objects, hsd, hhd, hpp, hpphd, hr1, hr2, hr3, hr4, hinf, hn]

/-- A crop-emission event can only come from the crop loop, and only for a
detection whose score reaches the threshold ratio. -/
theorem emitCrop_mem_cropLoopEvents {env : Env} {i : ℕ} {r : ℕ × ℕ × ℕ × ℕ}
    (h : Event.emitCrop i r ∈ cropLoopEvents env) :
    mkRat env.threshold 100 ≤ env.scores i := by
  simp only [cropLoopEvents, List.mem_flatMap, List.mem_range] at h
  obtain ⟨j, hj, hmem⟩ := h
  by_cases hc : mkRat env.threshold 100 ≤ env.scores j
  · rw [if_pos hc] at hmem
    simp only [List.mem_cons, List.not_mem_nil, or_false] at hmem
    rcases hmem with hmem | hmem
    · exact absurd hmem (by simp)
    · obtain ⟨hij, -⟩ := Event.emitCrop.inj hmem
      exact hij ▸ hc
  · rw [if_neg hc] at hmem
    exact absurd hmem (List.not_mem_nil _)

/-- The overlay loop never emits crop events. -/
theorem emitCrop_not_mem_overlayLoopEvents {env : Env} {i : ℕ}
    {r : ℕ × ℕ × ℕ × ℕ} : Event.emitCrop i r ∉ overlayLoopEvents env := by
  intro h
  simp only [overlayLoopEvents, List.mem_flatMap, List.mem_range] at h
  obtain ⟨j, hj, hmem⟩ := h
  simp at hmem

/-- Every index below the overlay loop bound yields an overlay record,
independently of its score. -/
theorem emitOverlay_mem_overlayLoopEvents {env : Env} {i : ℕ}
    (hi : i < overlayLoopLength env.numberOfDetections) :
    Event.emitOverlay i
        (get_coordinates env.widthFrameHD env.heightFrameHD
          env.stream_width env.stream_height
          (env.locations (4 * i)) (env.locations (4 * i + 1))
          (env.locations (4 * i + 2)) (env.locations (4 * i + 3)))
        (env.labels.getD (env.classes i) "") (env.scores i)
      ∈ overlayLoopEvents env := by
  simp only [overlayLoopEvents, List.mem_flatMap, List.mem_range]
  exact ⟨i, hi, by simp⟩

/-- C3: within a tick the four detector output rewinds happen after both
preprocess jobs and before the inference job (the trace of every tick that
reaches inference starts with exactly this sequence), and if any rewind
fails the inference job is not executed and the tick reports failure. -/
theorem C3_rewinds_between_preprocess_and_inference (env : Env) (b bhq : ℕ)
    (hsd : env.sdFrame = some b) (hhd : env.hdFrame = some bhq)
    (hpp : env.ppJobOk = true) (hpphd : env.ppHDJobOk = true) :
    ((env.rewind1Ok = true ∧ env.rewind2Ok = true ∧ env.rewind3Ok = true ∧
        env.rewind4Ok = true) →
      (detect_objects env).1.take 9 =
        [Event.acquireSD b, Event.acquireHD bhq, Event.runPPJob, Event.runPPHDJob,
         Event.rewindOut1, Event.rewindOut2, Event.rewindOut3, Event.rewindOut4,
         Event.runInference]) ∧
    ((env.rewind1Ok = false ∨ env.rewind2Ok = false ∨ env.rewind3Ok = false ∨
        env.rewind4Ok = false) →
      (detect_objects env).2 = false ∧
        Event.runInference ∉ (detect_objects env).1) := by
  constructor
  · rintro ⟨hr1, hr2, hr3, hr4⟩
    cases hinf : env.infJobOk <;> by_cases hn : env.numberOfDetections = 0 <;>
      simp [detect_objects, hsd, hhd, hpp, hpphd, hr1, hr2, hr3, hr4, hinf, hn,
        List.take_append_of_le_length]
  · intro h
    rcases h with h | h | h | h
    · simp [detect_objects, hsd, hhd, hpp, hpphd, h]
    · cases hr1 : env.rewind1Ok <;>
        simp [detect_objects, hsd, hhd, hpp, hpphd, hr1, h]
    · cases hr1 : env.rewind1Ok <;> cases hr2 : env.rewind2Ok <;>
        simp [detect_objects, hsd, hhd, hpp, hpphd, hr1, hr2, h]
    · cases hr1 : env.rewind1Ok <;> cases hr2 : env.rewind2Ok <;>
        cases hr3 : env.rewind3Ok <;>
        simp [detect_objects, hsd, hhd, hpp, hpphd, hr1, hr2, hr3, h]

/-- A successful tick environment with two detections: detection 0 has box
(1/4, 1/4, 3/4, 3/4) and score 9/10, detection 1 has box
(1/10, 1/10, 3/5, 3/5) and score 3/10, with threshold 50. -/
def envC2w : Env :=
  { sdFrame := some 0, hdFrame := some 1,
    ppJobOk := true, ppHDJobOk := true,
    rewind1Ok := true, rewind2Ok := true, rewind3Ok := true, rewind4Ok := true,
    infJobOk := true,
    locations := fun i =>
      [mkRat 1 4, mkRat 1 4, mkRat 3 4, mkRat 3 4,
       mkRat 1 10, mkRat 1 10, mkRat 3 5, mkRat 3 5].getD i 0,
    classes := fun _ => 0,
    scores := fun i => [mkRat 9 10, mkRat 3 10].getD i 0,
    numberOfDetections := 2,
    labels := ["person"],
    threshold := 50,
    widthFrameHD := 1280, heightFrameHD := 720,
    stream_width := 1280, stream_height := 720 }

/-- C2 counterexample: detection 1 of envC2w scores 3/10, strictly below
threshold/100 = 1/2, yet the tick emits an overlay record for it. -/
theorem C2_counterexample_low_score_overlay :
    Event.emitOverlay 1 (72, 352, 432, 712) "person" (mkRat 3 10)
        ∈ (detect_objects envC2w).1 ∧
      envC2w.scores 1 < mkRat envC2w.threshold 100 := by decide

/-- C2 amended: on a successful tick, a detection whose score is strictly
below threshold/100 produces no encoded-crop artifact, but the overlay loop
emits records for the first min(count, 5) detections regardless of score. -/
theorem C2_score_filter_amended (env : Env) (b bhq : ℕ)
    (hsd : env.sdFrame = some b) (hhd : env.hdFrame = some bhq)
    (hpp : env.ppJobOk = true) (hpphd : env.ppHDJobOk = true)
    (hr1 : env.rewind1Ok = true) (hr2 : env.rewind2Ok = true)
    (hr3 : env.rewind3Ok = true) (hr4 : env.rewind4Ok = true)
    (hinf : env.infJobOk = true) (hn : env.numberOfDetections ≠ 0)
    (i : ℕ) (hscore : env.scores i < mkRat env.threshold 100) :
    (∀ r : ℕ × ℕ × ℕ × ℕ, Event.emitCrop i r ∉ (detect_objects env).1) ∧
    (i < overlayLoopLength env.numberOfDetections →
      Event.emitOverlay i
          (get_coordinates env.widthFrameHD env.heightFrameHD
            env.stream_width env.stream_height
            (env.locations (4 * i)) (env.locations (4 * i + 1))
            (env.locations (4 * i + 2)) (env.locations (4 * i + 3)))
          (env.labels.getD (env.classes i) "") (env.scores i)
        ∈ (detect_objects env).1) := by
  have htr := detect_objects_success env b bhq hsd hhd hpp hpphd hr1 hr2 hr3 hr4 hinf hn
  constructor
  · intro r hmem
    rw [htr] at hmem
    simp only [List.mem_append, List.mem_cons, List.not_mem_nil, or_false,
      reduceCtorEq, false_or] at hmem
    rcases hmem with hmem | hmem
    · exact absurd (emitCrop_mem_cropLoopEvents hmem) (not_le.mpr hscore)
    · exact emitCrop_not_mem_overlayLoopEvents hmem
  · intro hi
    rw [htr]
    exact List.mem_append_left _ (List.mem_append_right _
      (emitOverlay_mem_overlayLoopEvents hi))

/-- Witness for the amended C2 at envC2w: detection 1 is below threshold, its
crop artifact is absent, its overlay record is present. -/
theorem C2_score_filter_amended_witness :
    Event.emitCrop 1 (352, 72, 360, 360) ∉ (detect_objects envC2w).1 ∧
    Event.emitOverlay 1 (72, 352, 432, 712) "person" (mkRat 3 10)
      ∈ (detect_objects envC2w).1 := by
  have h := C2_score_filter_amended envC2w 0 1 rfl rfl rfl rfl rfl rfl rfl rfl rfl
    (by decide) 1 (by decide)
  exact ⟨h.1 (352, 72, 360, 360), h.2 (by decide)⟩

/-- Witness for C3 at envC2w, whose rewinds all succeed. -/
theorem C3_rewinds_witness :
    (detect_objects envC2w).1.take 9 =
      [Event.acquireSD 0, Event.acquireHD 1, Event.runPPJob, Event.runPPHDJob,
       Event.rewindOut1, Event.rewindOut2, Event.rewindOut3, Event.rewindOut4,
       Event.runInference] :=
  (C3_rewinds_between_preprocess_and_inference envC2w 0 1 rfl rfl rfl rfl).1
    ⟨rfl, rfl, rfl, rfl⟩

/-- A successful tick environment whose inference reports zero detections. -/
def envZero : Env :=
  { sdFrame := some 0, hdFrame := some 1,
    ppJobOk := true, ppHDJobOk := true,
    rewind1Ok := true, rewind2Ok := true, rewind3Ok := true, rewind4Ok := true,
    infJobOk := true,
    locations := fun _ => 0,
    classes := fun _ => 0,
    scores := fun _ => 0,
    numberOfDetections := 0,
    labels := ["person"],
    threshold := 50,
    widthFrameHD := 1280, heightFrameHD := 720,
    stream_width := 1280, stream_height := 720 }

/-- C5: on the zero-detection tick of envZero the tick reports success, yet
neither acquired frame is returned to its provider — the early return at the
zero-count check skips both returnFrame calls. -/
theorem C5_frames_not_released_on_zero_count :
    (detect_objects envZero).2 = true ∧
    Event.returnSD 0 ∉ (detect_objects envZero).1 ∧
    Event.returnHD 1 ∉ (detect_objects envZero).1 ∧
    envZero.sdFrame = some 0 ∧ envZero.hdFrame = some 1 := by decide

/-- C8: a zero detection count makes the tick succeed right after inference,
with no crop artifact and no overlay record produced. -/
theorem C8_zero_count_empty_result (env : Env) (b bhq : ℕ)
    (hsd : env.sdFrame = some b) (hhd : env.hdFrame = some bhq)
    (hpp : env.ppJobOk = true) (hpphd : env.ppHDJobOk = true)
    (hr1 : env.rewind1Ok = true) (hr2 : env.rewind2Ok = true)
    (hr3 : env.rewind3Ok = true) (hr4 : env.rewind4Ok = true)
    (hinf : env.infJobOk = true) (hn : env.numberOfDetections = 0) :
    (detect_objects env).2 = true ∧
    (∀ i r, Event.emitCrop i r ∉ (detect_objects env).1) ∧
    (∀ i r l s, Event.emitOverlay i r l s ∉ (detect_objects env).1) := by
  have h := detect_objects_zero env b bhq hsd hhd hpp hpphd hr1 hr2 hr3 hr4 hinf hn
  refine ⟨by rw [h], fun i r => ?_, fun i r l s => ?_⟩ <;> rw [h] <;> simp

/-- Witness for C8 at envZero. -/
theorem C8_zero_count_empty_result_witness :
    (detect_objects envZero).2 = true ∧
    Event.emitCrop 0 (0, 0, 0, 0) ∉ (detect_objects envZero).1 ∧
    Event.emitOverlay 0 (0, 0, 0, 0) "" 0 ∉ (detect_objects envZero).1 := by
  have h := C8_zero_count_empty_result envZero 0 1 rfl rfl rfl rfl rfl rfl rfl rfl
    rfl rfl
  exact ⟨h.1, h.2.1 0 (0, 0, 0, 0), h.2.2 0 (0, 0, 0, 0) "" 0⟩

/-- A successful tick environment with one detection whose class index 10 is
out of bounds for the one-entry label table. -/
def envC6 : Env :=
  { sdFrame := some 0, hdFrame := some 1,
    ppJobOk := true, ppHDJobOk := true,
    rewind1Ok := true, rewind2Ok := true, rewind3Ok := true, rewind4Ok := true,
    infJobOk := true,
    locations := fun i =>
      [mkRat 1 4, mkRat 1 4, mkRat 3 4, mkRat 3 4].getD i 0,
    classes := fun _ => 10,
    scores := fun _ => mkRat 9 10,
    numberOfDetections := 1,
    labels := ["person"],
    threshold := 50,
    widthFrameHD := 1280, heightFrameHD := 720,
    stream_width := 1280, stream_height := 720 }

/-- C6: a class index past the end of the label table is used to index the
table without any bounds check, and the tick still reports success — no
configuration error is raised. -/
theorem C6_class_index_unchecked :
    (detect_objects envC6).2 = true ∧
    Event.labelLookup 10 ∈ (detect_objects envC6).1 ∧
    envC6.labels.length ≤ 10 := by decide

/-- A successful tick environment with one detection whose box
(top 1/4, left 1/4, bottom 3/2, right 3/4) extends below the frame. -/
def envC7 : Env :=
  { sdFrame := some 0, hdFrame := some 1,
    ppJobOk := true, ppHDJobOk := true,
    rewind1Ok := true, rewind2Ok := true, rewind3Ok := true, rewind4Ok := true,
    infJobOk := true,
    locations := fun i =>
      [mkRat 1 4, mkRat 1 4, mkRat 3 2, mkRat 3 4].getD i 0,
    classes := fun _ => 0,
    scores := fun _ => mkRat 9 10,
    numberOfDetections := 1,
    labels := ["person"],
    threshold := 50,
    widthFrameHD := 1280, heightFrameHD := 720,
    stream_width := 1280, stream_height := 720 }

/-- C7: the crop rectangle handed to the cropper for the kept detection of
envC7 ends 360 rows below the bottom of the 1280 by 720 HD buffer — it is
passed on unclamped. -/
theorem C7_crop_rectangle_not_clamped :
    Event.emitCrop 0 (460, 180, 360, 900) ∈ (detect_objects envC7).1 ∧
    envC7.heightFrameHD = 720 ∧ 720 < 180 + 900 := by decide

/-- A successful tick environment whose live stream dimensions (640 by 360)
differ from the HD capture dimensions (1280 by 720). -/
def envC4 : Env :=
  { sdFrame := some 0, hdFrame := some 1,
    ppJobOk := true, ppHDJobOk := true,
    rewind1Ok := true, rewind2Ok := true, rewind3Ok := true, rewind4Ok := true,
    infJobOk := true,
    locations := fun i =>
      [mkRat 1 4, mkRat 1 4, mkRat 3 4, mkRat 3 4].getD i 0,
    classes := fun _ => 0,
    scores := fun _ => mkRat 9 10,
    numberOfDetections := 1,
    labels := ["person"],
    threshold := 50,
    widthFrameHD := 1280, heightFrameHD := 720,
    stream_width := 640, stream_height := 360 }

/-- C4 counterexample: with a 640 by 360 stream the emitted overlay rectangle
is (180, 460, 540, 820), the HD-space rectangle — not the stream-space
rectangle (90, 230, 270, 410) that the same affine map against the stream
dimensions would give. -/
theorem C4_counterexample_overlay_not_stream_space :
    Event.emitOverlay 0 (180, 460, 540, 820) "person" (mkRat 9 10)
        ∈ (detect_objects envC4).1 ∧
      envC4.stream_width = 640 ∧ envC4.stream_height = 360 ∧
      getCoordinatesStreamSpec 640 360 (mkRat 1 4) (mkRat 1 4) (mkRat 3 4)
          (mkRat 3 4) = (90, 230, 270, 410) ∧
      ((180, 460, 540, 820) : ℕ × ℕ × ℕ × ℕ) ≠ (90, 230, 270, 410) := by decide

/-- C4 amended: the overlay rectangle is computed with the same affine map as
the crop rectangle, but expressed against the HD capture dimensions; the
stream dimensions passed to get_coordinates do not influence the result. -/
theorem C4_amended_overlay_in_hd_space :
    ∀ (widthFrameHD heightFrameHD sw sh sw2 sh2 : ℕ) (top left bottom right : ℚ),
      get_coordinates widthFrameHD heightFrameHD sw sh top left bottom right =
        get_coordinates widthFrameHD heightFrameHD sw2 sh2 top left bottom right ∧
      get_coordinates widthFrameHD heightFrameHD sw sh top left bottom right =
        ((cropRect widthFrameHD heightFrameHD top left bottom right).2.1,
         (cropRect widthFrameHD heightFrameHD top left bottom right).1,
         (cropRect widthFrameHD heightFrameHD top left bottom right).2.1 +
           (cropRect widthFrameHD heightFrameHD top left bottom right).2.2.2,
         (cropRect widthFrameHD heightFrameHD top left bottom right).1 +
           (cropRect widthFrameHD heightFrameHD top left bottom right).2.2.1) :=
  fun _ _ _ _ _ _ _ _ _ _ => ⟨rfl, rfl⟩

/-- LINE_MAX_LEN from parseLabels (object_detection.c line 585). -/
def LINE_MAX_LEN : ℕ := 60

/-- Length of the NUL-terminated string starting at position s of the
buffer, reading at most n bytes: the strnlen call of parseLabels. -/
def strnlenFrom (buf : List ℕ) (s n : ℕ) : ℕ :=
  (((buf.drop s).take n).takeWhile (fun b => b != 0)).length

/-- Positions at which label strings start (parseLabels, lines 663 to 676):
position zero plus every position following a newline that is not the last
byte of the file. -/
def labelStarts (data : List ℕ) : List ℕ :=
  0 :: (((List.range data.length).filter
    (fun i => data.getD i 0 == 10 && decide (i + 1 < data.length))).map (· + 1))

/-- The capping pass of parseLabels (lines 682 to 689): for every label whose
strnlen reaches LINE_MAX_LEN, a NUL terminator is written one byte past the
limit, at offset LINE_MAX_LEN + 1 from the label start. -/
def capPass (buf : List ℕ) (starts : List ℕ) : List ℕ :=
  starts.foldl (fun b s =>
    if LINE_MAX_LEN ≤ strnlenFrom b s LINE_MAX_LEN then
      b.set (s + LINE_MAX_LEN + 1) 0
    else b) buf

/-- The NUL-terminated string stored at position s of the buffer. -/
def readLabel (buf : List ℕ) (s : ℕ) : List ℕ :=
  (buf.drop s).takeWhile (fun b => b != 0)

/-- Embedding of the in-memory phase of parseLabels (lines 642 to 693) on the
label file contents given as bytes: newlines are replaced by NUL, a NUL is
appended after the file contents, overlong labels are capped, and the stored
label strings are read back from the recorded start positions. -/
def parseLabels (fileData : List ℕ) : List (List ℕ) :=
  let buf0 := (fileData.map (fun b => if b = 10 then 0 else b)) ++ [0]
  let starts := labelStarts fileData
  let buf := capPass buf0 starts
  starts.map (fun s => readLabel buf s)

/-- A label file whose first line is 62 bytes of the letter a, followed by a
one-byte second line. -/
def overlongLabelFile : List ℕ := List.replicate 62 97 ++ [10, 98]

/-- C9: a 62-byte label line is stored as a 61-byte label string — the
capping write lands at offset 61 instead of 60, so stored labels can exceed
the documented 60-byte maximum. -/
theorem C9_label_truncation_off_by_one :
    (overlongLabelFile.takeWhile (fun b => b != 10)).length = 62 ∧
    ((parseLabels overlongLabelFile).getD 0 []).length = 61 ∧
    LINE_MAX_LEN < 61 := by decide

/-- Indices at which the crop/encode loop reads the box-location tensor: four
floats per detection index below the reported count (lines 931 to 935). -/
def cropLoopLocationIndices (count : ℕ) : List ℕ :=
  (List.range count).flatMap fun i => [4 * i, 4 * i + 1, 4 * i + 2, 4 * i + 3]

/-- Indices at which the crop/encode loop reads the classes and scores
tensors: every detection index below the reported count (lines 944 to 949). -/
def cropLoopScoreIndices (count : ℕ) : List ℕ := List.range count

/-- All reads of the crop/encode loop stay within the float capacities of the
mapped output tensors (TENSOR1SIZE holds 80 floats, TENSOR2SIZE and
TENSOR3SIZE hold 20 each). -/
def cropLoopReadsInBounds (count : ℕ) : Prop :=
  (∀ j ∈ cropLoopLocationIndices count, j < TENSOR1SIZE / FLOATSIZE) ∧
  (∀ j ∈ cropLoopScoreIndices count, j < TENSOR2SIZE / FLOATSIZE) ∧
  (∀ j ∈ cropLoopScoreIndices count, j < TENSOR3SIZE / FLOATSIZE)

/-- C10: the crop/encode loop reads the output tensors at every index below
the reported detection count, and those reads stay within the mapped tensor
capacities exactly when the count is at most 20; the overlay loop bound is
independently capped at 5. -/
theorem C10_crop_loop_bounded_only_by_count :
    ∀ count : ℕ,
      (cropLoopReadsInBounds count ↔ count ≤ 20) ∧
      overlayLoopLength count ≤ OBJECT_OVERLAYS_MAX_LENGTH := by
  intro count
  constructor
  · constructor
    · rintro ⟨h1, h2, h3⟩
      by_contra hn
      push_neg at hn
      have h20 : (20 : ℕ) ∈ cropLoopScoreIndices count := by
        simp only [cropLoopScoreIndices, List.mem_range]
        omega
      have := h2 20 h20
      simp [TENSOR2SIZE, FLOATSIZE] at this
    · intro hcount
      refine ⟨?_, ?_, ?_⟩
      · intro j hj
        simp only [cropLoopLocationIndices, List.mem_flatMap, List.mem_range,
          List.mem_cons, List.not_mem_nil, or_false] at hj
        obtain ⟨i, hi, hji⟩ := hj
        simp only [TENSOR1SIZE, FLOATSIZE]
        rcases hji with h | h | h | h <;> omega
      · intro j hj
        simp only [cropLoopScoreIndices, List.mem_range] at hj
        simp only [TENSOR2SIZE, FLOATSIZE]
        omega
      · intro j hj
        simp only [cropLoopScoreIndices, List.mem_range] at hj
        simp only [TENSOR3SIZE, FLOATSIZE]
        omega
  · unfold overlayLoopLength OBJECT_OVERLAYS_MAX_LENGTH
    split <;> omega

end ObjectDetection
